import Mathlib

/-!
# Intermittent fasting tracker: phase resolution and session state

A shallow embedding of `src/App.js`.  JavaScript numbers that the program
handles are millisecond instants, hour counts and their sums; they are modelled
as exact integers together with the one non-integer value the code can
produce, `NaN`.  Integers are exact at every size, whereas JavaScript rounds
to a double above `2^53` and `toString()` takes an exponent form from `10^21`
on; where a statement names a value read from text it is bounded by
`exactBound`.  The browser services the component calls (`Date.now()`,
`new Date(text).getTime()`, `localStorage`) are explicit arguments.
-/

namespace FastingTracker

/-! ## JavaScript numbers -/

/-- A JavaScript number as it occurs in `App.js`: an integer or `NaN`. -/
inductive JSNum where
  | num (z : Int)
  | nan
  deriving DecidableEq, Repr

namespace JSNum

/-- The test `isNaN(x)`. -/
def isNaN : JSNum → Bool
  | num _ => false
  | nan => true

/-- Truthiness of a number: `0` and `NaN` are falsy. -/
def truthy : JSNum → Bool
  | num z => decide (z ≠ 0)
  | nan => false

/-- The sum `a + b`. -/
def add : JSNum → JSNum → JSNum
  | num a, num b => num (a + b)
  | _, _ => nan

/-- The difference `a - b`. -/
def sub : JSNum → JSNum → JSNum
  | num a, num b => num (a - b)
  | _, _ => nan

/-- The product `a * b`. -/
def mul : JSNum → JSNum → JSNum
  | num a, num b => num (a * b)
  | _, _ => nan

/-- The comparison `a >= b`; false as soon as one side is `NaN`. -/
def ge : JSNum → JSNum → Bool
  | num a, num b => decide (b ≤ a)
  | _, _ => false

/-- The comparison `a > b`; false as soon as one side is `NaN`. -/
def gt : JSNum → JSNum → Bool
  | num a, num b => decide (b < a)
  | _, _ => false

/-- The comparison `a < b`; false as soon as one side is `NaN`. -/
def lt : JSNum → JSNum → Bool
  | num a, num b => decide (a < b)
  | _, _ => false

end JSNum

/-! ## The phase table -/

/-- One entry of `fastingPhases`.  The `description` text and the `icon`
element are display data that no computation reads; they are left out. -/
structure Phase where
  name : String
  threshold : Int
  deriving DecidableEq, Repr

/-- The first entry of the table. -/
def anabolic : Phase :=
  { name := "Anabolic (0-4 hours)", threshold := 0 * 60 * 60 * 1000 }

/-- The second entry of the table. -/
def catabolic : Phase :=
  { name := "Catabolic / Glycogen Depletion (4-12 hours)", threshold := 4 * 60 * 60 * 1000 }

/-- The third entry of the table. -/
def fatBurning : Phase :=
  { name := "Fat Burning / Early Ketosis (12-18 hours)", threshold := 12 * 60 * 60 * 1000 }

/-- The fourth entry of the table. -/
def autophagy : Phase :=
  { name := "Autophagy / Enhanced Ketosis (18-24 hours)", threshold := 18 * 60 * 60 * 1000 }

/-- The fifth entry of the table. -/
def deepAutophagy : Phase :=
  { name := "Deep Autophagy / Immune Regeneration (24-48 hours)", threshold := 24 * 60 * 60 * 1000 }

/-- The sixth entry of the table. -/
def advancedAutophagy : Phase :=
  { name := "Advanced Autophagy / Stem Cell Activation (48+ hours)", threshold := 48 * 60 * 60 * 1000 }

/-- The table `fastingPhases`, thresholds in milliseconds, in source order. -/
def fastingPhases : List Phase :=
  [anabolic, catabolic, fatBurning, autophagy, deepAutophagy, advancedAutophagy]

/-- Insertion of one phase into a list ordered by threshold, after every
entry whose threshold is smaller and before the entries of equal threshold.
The sort below inserts the earlier entries of the source list last, so
entries of equal threshold keep their source order. -/
def insertByThreshold (p : Phase) : List Phase → List Phase
  | [] => [p]
  | q :: qs => if q.threshold < p.threshold then q :: insertByThreshold p qs else p :: q :: qs

/-- The call `[...xs].sort((a, b) => a.threshold - b.threshold)`: the stable
ascending sort by threshold of a copy of the list. -/
def sortByThreshold : List Phase → List Phase
  | [] => []
  | p :: ps => insertByThreshold p (sortByThreshold ps)

/-- The `for` loop of `getFastingPhase`: walk the sorted list, keep the entry
while `timeElapsed >= threshold`, stop at the first entry that fails. -/
def getFastingPhaseLoop (timeElapsed : JSNum) : List Phase → Phase → Phase
  | [], current => current
  | p :: ps, current =>
    if timeElapsed.ge (.num p.threshold) then getFastingPhaseLoop timeElapsed ps p else current

/-- The function `getFastingPhase` over a table; `none` stands for the
`undefined` that `sortedPhases[0]` is on an empty table. -/
def getFastingPhaseOf (table : List Phase) (timeElapsed : JSNum) : Option Phase :=
  match sortByThreshold table with
  | [] => none
  | p0 :: rest => some (getFastingPhaseLoop timeElapsed (p0 :: rest) p0)

/-- The function `getFastingPhase` of the component, over `fastingPhases`. -/
def getFastingPhase (timeElapsed : JSNum) : Option Phase :=
  getFastingPhaseOf fastingPhases timeElapsed

/-- The next-phase computation of the render: under the guard
`elapsedTime < fastingPhases[fastingPhases.length - 1].threshold`, the list
`fastingPhases.filter(threshold > elapsedTime).sort(by threshold).slice(0, 1)`;
the empty list when the guard fails (nothing is rendered).  The enclosing
test `currentPhase && ...` always passes: the state is an object from the
first render on. -/
def nextPhaseOf (table : List Phase) (elapsedTime : JSNum) : List Phase :=
  match table.getLast? with
  | none => []
  | some last =>
    if elapsedTime.lt (.num last.threshold) then
      (sortByThreshold (table.filter fun phase => JSNum.gt (.num phase.threshold) elapsedTime)).take 1
    else []

/-- The next-phase list of the component, over `fastingPhases`. -/
def nextPhase (elapsedTime : JSNum) : List Phase :=
  nextPhaseOf fastingPhases elapsedTime

/-! ## Strings and numbers

`localStorage` holds strings and the target-hours field delivers a string, so
the conversions `parseInt(text, 10)`, `Number(text)` and `toString()` are
modelled on the characters of the text. -/

/-- Code points of the characters that `parseInt` and `Number` skip as white
space (tab, line terminators, space, no-break space, the Unicode space
separators and the byte order mark). -/
def whiteSpaceCodes : List Nat :=
  [9, 10, 11, 12, 13, 32, 160, 5760, 8192, 8193, 8194, 8195, 8196, 8197, 8198, 8199, 8200,
   8201, 8202, 8232, 8233, 8239, 8287, 12288, 65279]

/-- Whether a character is white space for the numeric conversions. -/
def isWhiteSpace (c : Char) : Bool := decide (c.toNat ∈ whiteSpaceCodes)

/-- Whether a character is one of the decimal digits. -/
def isDigit (c : Char) : Bool := decide (48 ≤ c.toNat ∧ c.toNat ≤ 57)

/-- The value of a decimal digit character. -/
def digitValue (c : Char) : Nat := c.toNat - 48

/-- The value of a run of decimal digits, most significant first. -/
def digitsValue (cs : List Char) : Nat := cs.foldl (fun acc c => acc * 10 + digitValue c) 0

/-- Removal of one leading sign character; the flag tells whether it was a minus. -/
def stripSign : List Char → Bool × List Char
  | [] => (false, [])
  | c :: rest => if c = '-' then (true, rest) else if c = '+' then (false, rest) else (false, c :: rest)

/-- The integer with the given sign flag and magnitude. -/
def signed (negative : Bool) (n : Nat) : Int := if negative then -(n : Int) else (n : Int)

/-- The bound `2^53`: every integer of magnitude up to it is a double, so
JavaScript holds it, adds it and multiplies it exactly as long as the result
stays within the bound. -/
def exactBound : Int := 9007199254740992

/-- The call `parseInt(text, 10)`: skip leading white space, read an optional
sign, then the longest run of decimal digits; `NaN` when that run is empty.
Whatever follows the digits is ignored.  The result is the exact integer of
the digit run; JavaScript returns the nearest double, which is that integer
when its magnitude is at most `exactBound` and has the same sign in every
case.  Statements that name the value read carry that bound. -/
def parseInt (text : String) : JSNum :=
  let (negative, body) := stripSign (text.toList.dropWhile isWhiteSpace)
  let digits := body.takeWhile isDigit
  if digits.isEmpty then .nan else .num (signed negative (digitsValue digits))

/-- The call `Number(text)` on the texts this model covers: white space is
trimmed at both ends, the empty text is `0`, an optionally signed run of
decimal digits is that integer, and a text with no numeric reading is `NaN`.
Texts that JavaScript reads as a fraction, with an exponent, with a radix
mark or as `Infinity` have no value in `JSNum`, and a digit run above
`exactBound` is rounded by JavaScript; the statements below apply the
function only to the decimal text of an integer within `exactBound` and to
texts with no numeric reading, or leave its value unnamed. -/
def jsNumber (text : String) : JSNum :=
  let trimmed := (text.toList.dropWhile isWhiteSpace).rdropWhile isWhiteSpace
  if trimmed.isEmpty then .num 0
  else
    let (negative, body) := stripSign trimmed
    if !body.isEmpty && body.all isDigit then .num (signed negative (digitsValue body)) else .nan

/-- The character of a decimal digit. -/
def digitChar (d : Nat) : Char := Char.ofNat (48 + d)

/-- The decimal digits of a natural number, most significant first; the first
argument bounds the number of divisions and is given as the number itself. -/
def natDigits : Nat → Nat → List Char
  | 0, n => [digitChar (n % 10)]
  | fuel + 1, n => if n < 10 then [digitChar n] else natDigits fuel (n / 10) ++ [digitChar (n % 10)]

/-- The decimal characters of an integer, with a leading minus when negative. -/
def intDigits (z : Int) : List Char :=
  if z < 0 then '-' :: natDigits z.natAbs z.natAbs else natDigits z.natAbs z.natAbs

/-- The call `x.toString()` on a number. -/
def JSNum.toString : JSNum → String
  | .num z => String.mk (intDigits z)
  | .nan => "NaN"

/-- The string a boolean is stored as (`toString()`, and the coercion that
`localStorage.setItem` applies to a boolean value). -/
def boolToString (b : Bool) : String := if b then "true" else "false"

/-! ## The key-value store -/

/-- The content of `localStorage`: a string or nothing (`null`) under each key. -/
abbrev Store := String → Option String

/-- The call `localStorage.getItem(key)`. -/
def getItem (store : Store) (key : String) : Option String := store key

/-- The call `localStorage.setItem(key, value)`. -/
def setItem (store : Store) (key value : String) : Store :=
  fun k => if k = key then some value else store k

/-- The store with nothing in it. -/
def emptyStore : Store := fun _ => none

/-- Truthiness of what `getItem` returns: `null` and the empty string are falsy. -/
def textTruthy : Option String → Bool
  | none => false
  | some text => decide (text ≠ "")

/-! ## Session state -/

/-- The React state of the component.  `startTime` and `estimatedEndTime` are
`none` for `null`; `currentPhase` is `none` for the empty object the state
starts with (and for `undefined`). -/
structure State where
  isFasting : Bool
  startTime : Option JSNum
  targetFastingHours : JSNum
  elapsedTime : JSNum
  currentPhase : Option Phase
  estimatedEndTime : Option JSNum
  deriving DecidableEq

/-- Truthiness of a start instant that may be `null`. -/
def startTruthy : Option JSNum → Bool
  | none => false
  | some x => x.truthy

/-- The function `calculateEstimatedEndTime`, as the value it gives to
`setEstimatedEndTime`: `start + targetHours * 60 * 60 * 1000` when both
arguments are truthy, `null` otherwise. -/
def calculateEstimatedEndTime (start : Option JSNum) (targetHours : JSNum) : Option JSNum :=
  match start with
  | some s =>
    if s.truthy && targetHours.truthy then
      some (s.add (((targetHours.mul (.num 60)).mul (.num 60)).mul (.num 1000)))
    else none
  | none => none

/-- The initialiser of the `isFasting` state. -/
def initIsFasting (store : Store) : Bool :=
  decide (getItem store "isFasting" = some "true")

/-- The initialiser of the `startTime` state. -/
def initStartTime (store : Store) : Option JSNum :=
  match getItem store "startTime" with
  | some saved => if saved ≠ "" then some (jsNumber saved) else none
  | none => none

/-- The initialiser of the `targetFastingHours` state. -/
def initTargetFastingHours (store : Store) : JSNum :=
  match getItem store "targetFastingHours" with
  | some saved => if saved ≠ "" then jsNumber saved else .num 18
  | none => .num 18

/-- The state of the first render: the three initialisers and the constant
initial values of the other three states. -/
def initialState (store : Store) : State :=
  { isFasting := initIsFasting store
    startTime := initStartTime store
    targetFastingHours := initTargetFastingHours store
    elapsedTime := .num 0
    currentPhase := none
    estimatedEndTime := none }

/-- The mount effect: each of the three saved values, when truthy, replaces
the corresponding state. -/
def mountEffect (store : Store) (st : State) : State :=
  let st1 : State :=
    match getItem store "fast_start_time" with
    | some saved => if saved ≠ "" then { st with startTime := some (jsNumber saved) } else st
    | none => st
  let st2 : State :=
    match getItem store "fast_is_fasting" with
    | some saved => if saved ≠ "" then { st1 with isFasting := decide (saved = "true") } else st1
    | none => st1
  match getItem store "fast_target_hours" with
  | some saved => if saved ≠ "" then { st2 with targetFastingHours := jsNumber saved } else st2
  | none => st2

/-- The startup load: the initialisers followed by the mount effect. -/
def load (store : Store) : State := mountEffect store (initialState store)

/-- The four persistence effects, in source order. -/
def persistEffects (st : State) (store : Store) : Store :=
  let s1 : Store :=
    match st.startTime with
    | some t => setItem store "fast_start_time" t.toString
    | none => store
  let s2 := setItem s1 "isFasting" (boolToString st.isFasting)
  let s3 := setItem s2 "fast_is_fasting" (boolToString st.isFasting)
  setItem s3 "fast_target_hours" st.targetFastingHours.toString

/-- The callback given to `setInterval`, run at the instant `now`.  The
interval exists only while `isFasting && startTime !== null`. -/
def intervalCallback (now : Int) (st : State) : State :=
  match st.isFasting, st.startTime with
  | true, some s => { st with elapsedTime := (JSNum.num now).sub s }
  | _, _ => st

/-- The state update of the timer effect: `setCurrentPhase(getFastingPhase(elapsedTime))`. -/
def timerEffect (st : State) : State :=
  { st with currentPhase := getFastingPhase st.elapsedTime }

/-- One tick: the interval callback, then the timer effect that the change of
`elapsedTime` triggers. -/
def tick (now : Int) (st : State) : State := timerEffect (intervalCallback now st)

/-- The handler `startFasting`. -/
def startFasting (st : State) : State :=
  if !st.isFasting then { st with isFasting := true } else st

/-- The handler `pauseFasting`. -/
def pauseFasting (st : State) : State :=
  if st.isFasting then { st with isFasting := false } else st

/-- The handler `resetFasting`, run at the instant `now`, with its two direct
writes to the store. -/
def resetFasting (now : Int) (st : State) (store : Store) : State × Store :=
  ({ st with
      isFasting := false
      startTime := some (.num now)
      elapsedTime := .num 0
      currentPhase := fastingPhases.head?
      estimatedEndTime := calculateEstimatedEndTime (some (.num now)) st.targetFastingHours },
   setItem (setItem store "fast_start_time" (JSNum.num now).toString) "fast_is_fasting" "false")

/-- The handler `handleStartTimeChange`, run at the instant `now`.  The
argument `newStartTimeMs` is the value of `new Date(e.target.value).getTime()`:
the instant in milliseconds, or `NaN` when the text is not a valid date. -/
def handleStartTimeChange (newStartTimeMs : JSNum) (now : Int) (st : State) : State :=
  { st with
    startTime := some newStartTimeMs
    elapsedTime := if st.isFasting then (JSNum.num now).sub newStartTimeMs else .num 0
    estimatedEndTime := calculateEstimatedEndTime (some newStartTimeMs) st.targetFastingHours }

/-- The handler `handleTargetHoursChange` on the text of the input field. -/
def handleTargetHoursChange (value : String) (st : State) : State :=
  let hours := parseInt value
  if !hours.isNaN && hours.ge (.num 1) then
    { st with
      targetFastingHours := hours
      estimatedEndTime := calculateEstimatedEndTime st.startTime hours }
  else st

/-! ## Reference readings and sample states -/

/-- The reading of "the input is a positive integer" on the text of the field,
following the specification: the text is a non-empty run of decimal digits
whose value is at least 1. -/
def isPositiveIntegerText (text : String) : Bool :=
  !text.toList.isEmpty && text.toList.all isDigit && decide (1 ≤ digitsValue text.toList)

/-- A paused session that began at instant 1000 with the default target of
18 hours and a consistent estimated end. -/
def pausedSession : State :=
  { isFasting := false
    startTime := some (.num 1000)
    targetFastingHours := .num 18
    elapsedTime := .num 0
    currentPhase := some anabolic
    estimatedEndTime := some (.num 64801000) }

/-- A running session that began at instant 1000. -/
def runningSession : State := { pausedSession with isFasting := true }

/-- A session that has never been given a start instant. -/
def freshSession : State :=
  { isFasting := false
    startTime := none
    targetFastingHours := .num 18
    elapsedTime := .num 0
    currentPhase := none
    estimatedEndTime := none }

/-! ## Decimal text: rendering and reading back -/

theorem digitChar_spec : ∀ d, d < 10 → isDigit (digitChar d) = true ∧ digitValue (digitChar d) = d
    ∧ isWhiteSpace (digitChar d) = false ∧ digitChar d ≠ '-' ∧ digitChar d ≠ '+' := by decide


theorem natDigits_digit (fuel n : Nat) : ∀ c ∈ natDigits fuel n, ∃ d, d < 10 ∧ c = digitChar d := by
  induction fuel generalizing n with
  | zero =>
    intro c hc
    simp only [natDigits, List.mem_singleton] at hc
    exact ⟨n % 10, Nat.mod_lt _ (by decide), hc⟩
  | succ k ih =>
    intro c hc
    unfold natDigits at hc
    split at hc
    · rename_i hlt
      simp only [List.mem_singleton] at hc
      exact ⟨n, hlt, hc⟩
    · rcases List.mem_append.mp hc with h | h
      · exact ih _ c h
      · simp only [List.mem_singleton] at h
        exact ⟨n % 10, Nat.mod_lt _ (by decide), h⟩

theorem natDigits_ne_nil (fuel n : Nat) : natDigits fuel n ≠ [] := by
  cases fuel with
  | zero => simp [natDigits]
  | succ k =>
    unfold natDigits
    split <;> simp

theorem digitsValue_append (cs : List Char) (c : Char) :
    digitsValue (cs ++ [c]) = digitsValue cs * 10 + digitValue c := by
  simp [digitsValue, List.foldl_append]

theorem digitsValue_natDigits (fuel n : Nat) (h : n ≤ fuel) : digitsValue (natDigits fuel n) = n := by
  induction fuel generalizing n with
  | zero =>
    have hn : n = 0 := by omega
    subst hn
    decide
  | succ k ih =>
    unfold natDigits
    split
    · rename_i hlt
      simp [digitsValue, (digitChar_spec n hlt).2.1]
    · rw [digitsValue_append, ih (n / 10) (by omega), (digitChar_spec (n % 10) (Nat.mod_lt _ (by decide))).2.1]
      omega

theorem natDigits_all_digit (fuel n : Nat) : ∀ c ∈ natDigits fuel n, isDigit c = true := by
  intro c hc
  obtain ⟨d, hd, rfl⟩ := natDigits_digit fuel n c hc
  exact (digitChar_spec d hd).1

theorem natDigits_no_space (fuel n : Nat) : ∀ c ∈ natDigits fuel n, isWhiteSpace c = false := by
  intro c hc
  obtain ⟨d, hd, rfl⟩ := natDigits_digit fuel n c hc
  exact (digitChar_spec d hd).2.2.1

theorem dropWhile_of_head (p : Char → Bool) (c : Char) (cs : List Char) (h : p c = false) :
    (c :: cs).dropWhile p = c :: cs := by
  simp [List.dropWhile, h]

theorem rdropWhile_of_all (p : Char → Bool) (cs : List Char) (h : ∀ c ∈ cs, p c = false) :
    cs.rdropWhile p = cs := by
  rw [List.rdropWhile_eq_self_iff]
  intro hl
  simp [h _ (List.getLast_mem hl)]

theorem takeWhile_of_all (p : Char → Bool) (cs : List Char) (h : ∀ c ∈ cs, p c = true) :
    cs.takeWhile p = cs := by
  rw [List.takeWhile_eq_self_iff]
  exact h

theorem stripSign_natDigits (fuel n : Nat) : stripSign (natDigits fuel n) = (false, natDigits fuel n) := by
  cases hcs : natDigits fuel n with
  | nil => exact absurd hcs (natDigits_ne_nil fuel n)
  | cons c cs =>
    obtain ⟨d, hd, hc⟩ := natDigits_digit fuel n c (by simp [hcs])
    have h := digitChar_spec d hd
    subst hc
    simp [stripSign, h.2.2.2.1, h.2.2.2.2]

theorem signed_natAbs (z : Int) : signed (decide (z < 0)) z.natAbs = z := by
  unfold signed
  by_cases h : z < 0
  · rw [if_pos (by simpa using h)]; omega
  · rw [if_neg (by simpa using h)]; omega

theorem intDigits_scan (z : Int) :
    stripSign ((intDigits z).dropWhile isWhiteSpace) = (decide (z < 0), natDigits z.natAbs z.natAbs) := by
  unfold intDigits
  by_cases h : z < 0
  · rw [if_pos h, dropWhile_of_head _ _ _ (by decide)]
    simp [stripSign, h]
  · rw [if_neg h]
    cases hcs : natDigits z.natAbs z.natAbs with
    | nil => exact absurd hcs (natDigits_ne_nil _ _)
    | cons c cs =>
      rw [dropWhile_of_head _ _ _ (natDigits_no_space z.natAbs z.natAbs c (by simp [hcs])), ← hcs,
        stripSign_natDigits]
      simp [h]

/-- Reading the decimal text of an integer with `parseInt` gives the integer back. -/
theorem parseInt_toString (z : Int) : parseInt (JSNum.toString (.num z)) = .num z := by
  show (match stripSign ((intDigits z).dropWhile isWhiteSpace) with
    | (negative, body) =>
      if (body.takeWhile isDigit).isEmpty then JSNum.nan
      else JSNum.num (signed negative (digitsValue (body.takeWhile isDigit)))) = _
  rw [intDigits_scan]
  simp only [takeWhile_of_all _ _ (natDigits_all_digit _ _)]
  have hne := natDigits_ne_nil z.natAbs z.natAbs
  rw [digitsValue_natDigits _ _ (le_refl _), signed_natAbs]
  cases hcs : natDigits z.natAbs z.natAbs with
  | nil => exact absurd hcs hne
  | cons c cs => simp

theorem intDigits_no_space (z : Int) : ∀ c ∈ intDigits z, isWhiteSpace c = false := by
  intro c hc
  unfold intDigits at hc
  split at hc
  · rcases List.mem_cons.mp hc with h | h
    · subst h; decide
    · exact natDigits_no_space _ _ c h
  · exact natDigits_no_space _ _ c hc

theorem intDigits_ne_nil (z : Int) : intDigits z ≠ [] := by
  unfold intDigits
  split
  · simp
  · exact natDigits_ne_nil _ _

/-- Reading the text of a number with `Number` gives the number back. -/
theorem jsNumber_toString (x : JSNum) : jsNumber (JSNum.toString x) = x := by
  cases x with
  | nan => decide
  | num z =>
    show (if (((intDigits z).dropWhile isWhiteSpace).rdropWhile isWhiteSpace).isEmpty then JSNum.num 0
      else match stripSign (((intDigits z).dropWhile isWhiteSpace).rdropWhile isWhiteSpace) with
        | (negative, body) =>
          if (!body.isEmpty && body.all isDigit) = true then JSNum.num (signed negative (digitsValue body))
          else JSNum.nan) = _
    have hdrop : (intDigits z).dropWhile isWhiteSpace = intDigits z := by
      cases hcs : intDigits z with
      | nil => rfl
      | cons c cs => exact dropWhile_of_head _ _ _ (intDigits_no_space z c (by simp [hcs]))
    have hscan := intDigits_scan z
    rw [hdrop] at hscan
    rw [hdrop, rdropWhile_of_all _ _ (intDigits_no_space z), hscan]
    have hne := intDigits_ne_nil z
    have hne2 := natDigits_ne_nil z.natAbs z.natAbs
    have hall : (natDigits z.natAbs z.natAbs).all isDigit = true := by
      rw [List.all_eq_true]; exact natDigits_all_digit _ _
    simp [hne, hne2, hall, digitsValue_natDigits, signed_natAbs]

/-- The text of a number is never empty, so it is truthy when read from the store. -/
theorem toString_ne_empty (x : JSNum) : JSNum.toString x ≠ "" := by
  cases x with
  | nan => decide
  | num z =>
    intro h
    have : (JSNum.toString (.num z)).data = [] := by rw [h]
    exact intDigits_ne_nil z this


/-! ## Phase resolution -/

/-- The table is written in ascending order: sorting it changes nothing. -/
theorem sortByThreshold_fastingPhases : sortByThreshold fastingPhases = fastingPhases := by
  decide

/-- C1. For every elapsed duration `e ≥ 0`, `getFastingPhase e` returns a phase
of the table whose threshold is at most `e` and is the greatest such
threshold (and no other entry has that threshold); `0` gives the Anabolic
phase, twelve hours gives the Fat Burning phase, and one millisecond less
gives the Catabolic phase. -/
theorem getFastingPhase_greatest_threshold (e : Int) (he : 0 ≤ e) :
    (∃ p, getFastingPhase (.num e) = some p ∧ p ∈ fastingPhases ∧ p.threshold ≤ e ∧
      ∀ q ∈ fastingPhases, q.threshold ≤ e →
        q.threshold ≤ p.threshold ∧ (q.threshold = p.threshold → q = p)) ∧
    getFastingPhase (.num 0) = some anabolic ∧
    getFastingPhase (.num (12 * 3600000)) = some fatBurning ∧
    getFastingPhase (.num (12 * 3600000 - 1)) = some catabolic := by
  refine ⟨?_, by decide, by decide, by decide⟩
  have hloop : getFastingPhase (.num e) =
      some (getFastingPhaseLoop (.num e) fastingPhases anabolic) := by
    simp only [getFastingPhase, getFastingPhaseOf, sortByThreshold_fastingPhases]
    rfl
  rw [hloop]
  have key : ∀ p : Phase, p ∈ fastingPhases → p.threshold ≤ e →
      (∀ q ∈ fastingPhases, q.threshold ≤ e →
        q.threshold ≤ p.threshold ∧ (q.threshold = p.threshold → q = p)) →
      getFastingPhaseLoop (.num e) fastingPhases anabolic = p →
      ∃ r, some (getFastingPhaseLoop (.num e) fastingPhases anabolic) = some r ∧
        r ∈ fastingPhases ∧ r.threshold ≤ e ∧
        ∀ q ∈ fastingPhases, q.threshold ≤ e →
          q.threshold ≤ r.threshold ∧ (q.threshold = r.threshold → q = r) :=
    fun p hp hle hmax heq => ⟨p, by rw [heq], hp, hle, hmax⟩
  by_cases h1 : e < 14400000
  · refine key anabolic (by decide) ?_ ?_ ?_
    all_goals simp [fastingPhases, getFastingPhaseLoop, JSNum.ge, anabolic, catabolic, fatBurning,
      autophagy, deepAutophagy, advancedAutophagy]
    all_goals omega
  by_cases h2 : e < 43200000
  · refine key catabolic (by decide) ?_ ?_ ?_
    all_goals simp [fastingPhases, getFastingPhaseLoop, JSNum.ge, anabolic, catabolic, fatBurning,
      autophagy, deepAutophagy, advancedAutophagy]
    all_goals first | omega | (split_ifs <;> first | rfl | omega)
  by_cases h3 : e < 64800000
  · refine key fatBurning (by decide) ?_ ?_ ?_
    all_goals simp [fastingPhases, getFastingPhaseLoop, JSNum.ge, anabolic, catabolic, fatBurning,
      autophagy, deepAutophagy, advancedAutophagy]
    all_goals first | omega | (split_ifs <;> first | rfl | omega)
  by_cases h4 : e < 86400000
  · refine key autophagy (by decide) ?_ ?_ ?_
    all_goals simp [fastingPhases, getFastingPhaseLoop, JSNum.ge, anabolic, catabolic, fatBurning,
      autophagy, deepAutophagy, advancedAutophagy]
    all_goals first | omega | (split_ifs <;> first | rfl | omega)
  by_cases h5 : e < 172800000
  · refine key deepAutophagy (by decide) ?_ ?_ ?_
    all_goals simp [fastingPhases, getFastingPhaseLoop, JSNum.ge, anabolic, catabolic, fatBurning,
      autophagy, deepAutophagy, advancedAutophagy]
    all_goals first | omega | (split_ifs <;> first | rfl | omega)
  · refine key advancedAutophagy (by decide) ?_ ?_ ?_
    all_goals simp [fastingPhases, getFastingPhaseLoop, JSNum.ge, anabolic, catabolic, fatBurning,
      autophagy, deepAutophagy, advancedAutophagy]
    all_goals first | omega | (split_ifs <;> first | rfl | omega)

/-- The phase resolution at 50,000,000 ms (between the 12 and 18 hour thresholds). -/
theorem getFastingPhase_greatest_threshold_witness :
    (0 : Int) ≤ 50000000 ∧
    ((∃ p, getFastingPhase (.num 50000000) = some p ∧ p ∈ fastingPhases ∧ p.threshold ≤ 50000000 ∧
      ∀ q ∈ fastingPhases, q.threshold ≤ 50000000 →
        q.threshold ≤ p.threshold ∧ (q.threshold = p.threshold → q = p)) ∧
    getFastingPhase (.num 0) = some anabolic ∧
    getFastingPhase (.num (12 * 3600000)) = some fatBurning ∧
    getFastingPhase (.num (12 * 3600000 - 1)) = some catabolic) :=
  ⟨by decide, getFastingPhase_greatest_threshold 50000000 (by decide)⟩

/-- C2. For every elapsed duration `e ≥ 0`, the next-phase computation yields
exactly the phase of the table with the smallest threshold strictly greater
than `e` when some threshold exceeds `e`, and nothing otherwise; it yields
nothing at fifty hours and at the final threshold of forty-eight hours. -/
theorem nextPhase_smallest_above (e : Int) (he : 0 ≤ e) :
    (((∃ q ∈ fastingPhases, e < q.threshold) →
        ∃ p, nextPhase (.num e) = [p] ∧ p ∈ fastingPhases ∧ e < p.threshold ∧
          ∀ q ∈ fastingPhases, e < q.threshold → p.threshold ≤ q.threshold) ∧
      ((¬ ∃ q ∈ fastingPhases, e < q.threshold) → nextPhase (.num e) = [])) ∧
    nextPhase (.num (50 * 3600000)) = [] ∧
    nextPhase (.num (48 * 3600000)) = [] := by
  refine ⟨?_, by decide, by decide⟩
  by_cases h1 : e < 14400000
  · have hn : nextPhase (.num e) = [catabolic] := by
      simp [nextPhase, nextPhaseOf, fastingPhases, List.getLast?, List.getLast, List.filter, JSNum.lt,
        JSNum.gt, sortByThreshold, insertByThreshold, anabolic, catabolic, fatBurning, autophagy,
        deepAutophagy, advancedAutophagy,
        (show ¬ e < 0 by omega), (show e < 14400000 by omega), (show e < 43200000 by omega),
        (show e < 64800000 by omega), (show e < 86400000 by omega), (show e < 172800000 by omega)]
    refine ⟨fun _ => ⟨catabolic, hn, by decide, ?_, ?_⟩, fun hnone => absurd ⟨catabolic, by decide, ?_⟩ hnone⟩
    all_goals simp [fastingPhases, anabolic, catabolic, fatBurning, autophagy, deepAutophagy,
      advancedAutophagy]
    all_goals omega
  by_cases h2 : e < 43200000
  · have hn : nextPhase (.num e) = [fatBurning] := by
      simp [nextPhase, nextPhaseOf, fastingPhases, List.getLast?, List.getLast, List.filter, JSNum.lt,
        JSNum.gt, sortByThreshold, insertByThreshold, anabolic, catabolic, fatBurning, autophagy,
        deepAutophagy, advancedAutophagy,
        (show ¬ e < 0 by omega), (show ¬ e < 14400000 by omega), (show e < 43200000 by omega),
        (show e < 64800000 by omega), (show e < 86400000 by omega), (show e < 172800000 by omega)]
    refine ⟨fun _ => ⟨fatBurning, hn, by decide, ?_, ?_⟩, fun hnone => absurd ⟨fatBurning, by decide, ?_⟩ hnone⟩
    all_goals simp [fastingPhases, anabolic, catabolic, fatBurning, autophagy, deepAutophagy,
      advancedAutophagy]
    all_goals omega
  by_cases h3 : e < 64800000
  · have hn : nextPhase (.num e) = [autophagy] := by
      simp [nextPhase, nextPhaseOf, fastingPhases, List.getLast?, List.getLast, List.filter, JSNum.lt,
        JSNum.gt, sortByThreshold, insertByThreshold, anabolic, catabolic, fatBurning, autophagy,
        deepAutophagy, advancedAutophagy,
        (show ¬ e < 0 by omega), (show ¬ e < 14400000 by omega), (show ¬ e < 43200000 by omega),
        (show e < 64800000 by omega), (show e < 86400000 by omega), (show e < 172800000 by omega)]
    refine ⟨fun _ => ⟨autophagy, hn, by decide, ?_, ?_⟩, fun hnone => absurd ⟨autophagy, by decide, ?_⟩ hnone⟩
    all_goals simp [fastingPhases, anabolic, catabolic, fatBurning, autophagy, deepAutophagy,
      advancedAutophagy]
    all_goals omega
  by_cases h4 : e < 86400000
  · have hn : nextPhase (.num e) = [deepAutophagy] := by
      simp [nextPhase, nextPhaseOf, fastingPhases, List.getLast?, List.getLast, List.filter, JSNum.lt,
        JSNum.gt, sortByThreshold, insertByThreshold, anabolic, catabolic, fatBurning, autophagy,
        deepAutophagy, advancedAutophagy,
        (show ¬ e < 0 by omega), (show ¬ e < 14400000 by omega), (show ¬ e < 43200000 by omega),
        (show ¬ e < 64800000 by omega), (show e < 86400000 by omega), (show e < 172800000 by omega)]
    refine ⟨fun _ => ⟨deepAutophagy, hn, by decide, ?_, ?_⟩, fun hnone => absurd ⟨deepAutophagy, by decide, ?_⟩ hnone⟩
    all_goals simp [fastingPhases, anabolic, catabolic, fatBurning, autophagy, deepAutophagy,
      advancedAutophagy]
    all_goals omega
  by_cases h5 : e < 172800000
  · have hn : nextPhase (.num e) = [advancedAutophagy] := by
      simp [nextPhase, nextPhaseOf, fastingPhases, List.getLast?, List.getLast, List.filter, JSNum.lt,
        JSNum.gt, sortByThreshold, insertByThreshold, anabolic, catabolic, fatBurning, autophagy,
        deepAutophagy, advancedAutophagy,
        (show ¬ e < 0 by omega), (show ¬ e < 14400000 by omega), (show ¬ e < 43200000 by omega),
        (show ¬ e < 64800000 by omega), (show ¬ e < 86400000 by omega), (show e < 172800000 by omega)]
    refine ⟨fun _ => ⟨advancedAutophagy, hn, by decide, ?_, ?_⟩, fun hnone => absurd ⟨advancedAutophagy, by decide, ?_⟩ hnone⟩
    all_goals simp [fastingPhases, anabolic, catabolic, fatBurning, autophagy, deepAutophagy,
      advancedAutophagy]
    all_goals omega
  · have hn : nextPhase (.num e) = [] := by
      simp [nextPhase, nextPhaseOf, fastingPhases, List.getLast?, List.getLast, JSNum.lt,
        advancedAutophagy, (show ¬ e < 172800000 by omega)]
    refine ⟨fun hsome => ?_, fun _ => hn⟩
    obtain ⟨q, hq, hlt⟩ := hsome
    simp [fastingPhases, anabolic, catabolic, fatBurning, autophagy, deepAutophagy,
      advancedAutophagy] at hq
    rcases hq with rfl | rfl | rfl | rfl | rfl | rfl <;> simp at hlt <;> omega

/-- The next-phase computation at 50,000,000 ms. -/
theorem nextPhase_smallest_above_witness :
    (0 : Int) ≤ 50000000 ∧
    ((((∃ q ∈ fastingPhases, 50000000 < q.threshold) →
        ∃ p, nextPhase (.num 50000000) = [p] ∧ p ∈ fastingPhases ∧ 50000000 < p.threshold ∧
          ∀ q ∈ fastingPhases, 50000000 < q.threshold → p.threshold ≤ q.threshold) ∧
      ((¬ ∃ q ∈ fastingPhases, 50000000 < q.threshold) → nextPhase (.num 50000000) = [])) ∧
    nextPhase (.num (50 * 3600000)) = [] ∧
    nextPhase (.num (48 * 3600000)) = []) :=
  ⟨by decide, nextPhase_smallest_above 50000000 (by decide)⟩

/-! ## Start, pause and reset -/

/-- C3. Start, then pause, then start leaves every state other than the
running flag as it was (so `startTime` and `targetFastingHours` are kept) and
ends running; neither handler changes `startTime`; starting a running session
and pausing a paused one change nothing. -/
theorem start_pause_start_keeps_startTime (st : State) :
    startFasting (pauseFasting (startFasting st)) = { st with isFasting := true } ∧
    (startFasting (pauseFasting (startFasting st))).startTime = st.startTime ∧
    (startFasting (pauseFasting (startFasting st))).targetFastingHours = st.targetFastingHours ∧
    (startFasting (pauseFasting (startFasting st))).isFasting = true ∧
    (startFasting st).startTime = st.startTime ∧
    (pauseFasting st).startTime = st.startTime ∧
    (st.isFasting = true → startFasting st = st) ∧
    (st.isFasting = false → pauseFasting st = st) := by
  obtain ⟨f, s, t, e, c, ee⟩ := st
  cases f <;> simp [startFasting, pauseFasting]

/-- C4. From every prior state and at every call instant `now`, `resetFasting`
gives a state that is not running, whose `startTime` is `now` and whose
`targetFastingHours` is the prior one; it also writes `now` and `"false"`
under `fast_start_time` and `fast_is_fasting`. -/
theorem resetFasting_result (now : Int) (st : State) (store : Store) :
    (resetFasting now st store).1.isFasting = false ∧
    (resetFasting now st store).1.startTime = some (.num now) ∧
    (resetFasting now st store).1.targetFastingHours = st.targetFastingHours ∧
    getItem (resetFasting now st store).2 "fast_start_time" = some (JSNum.num now).toString ∧
    getItem (resetFasting now st store).2 "fast_is_fasting" = some "false" := by
  simp [resetFasting, getItem, setItem]

/-! ## Target hours -/

/-- The handler on a text that `parseInt` reads as the integer `h`. -/
theorem handleTargetHoursChange_of_num (value : String) (st : State) (h : Int)
    (hp : parseInt value = .num h) :
    handleTargetHoursChange value st =
      if 1 ≤ h then
        { st with
          targetFastingHours := .num h
          estimatedEndTime := calculateEstimatedEndTime st.startTime (.num h) }
      else st := by
  simp only [handleTargetHoursChange, hp, JSNum.isNaN, JSNum.ge]
  by_cases h1 : 1 ≤ h <;> simp [h1]

/-- The handler on a text that `parseInt` reads as `NaN`. -/
theorem handleTargetHoursChange_of_nan (value : String) (st : State)
    (hp : parseInt value = .nan) : handleTargetHoursChange value st = st := by
  simp [handleTargetHoursChange, hp, JSNum.isNaN]

/-- C5, the claim as stated fails: the text `3.7` is not a positive integer,
yet the handler accepts it and sets the target to 3. -/
theorem handleTargetHoursChange_accepts_fraction :
    isPositiveIntegerText "3.7" = false ∧
    handleTargetHoursChange "3.7" pausedSession ≠ pausedSession ∧
    (handleTargetHoursChange "3.7" pausedSession).targetFastingHours = .num 3 := by
  decide

/-- C5, amended. The handler accepts an input exactly when `parseInt(input, 10)`,
the integer read from the leading optionally signed run of decimal digits, is
at least 1. In every other case (`NaN`, or an integer below 1) the whole state
is unchanged: so for `0`, `-5`, the decimal text of any integer below 1, the
empty text and text with no leading digits. For an accepted input whose
leading integer `h` is at most `2^53`, `targetFastingHours` becomes `h`, the
running flag, start instant, elapsed time and phase are kept, and the
estimate is recomputed: `null` without a start instant, `s + h * 3600000` for
a non-zero start instant `s` when that sum and product stay within `2^53`.
So the decimal text of an integer `n` with `1 ≤ n ≤ 2^53` sets the target to
`n`. -/
theorem handleTargetHoursChange_accepts_parsed (value : String) (st : State) :
    (∀ h : Int, parseInt value = .num h → 1 ≤ h → h ≤ exactBound →
      (handleTargetHoursChange value st).targetFastingHours = .num h ∧
      (handleTargetHoursChange value st).isFasting = st.isFasting ∧
      (handleTargetHoursChange value st).startTime = st.startTime ∧
      (handleTargetHoursChange value st).elapsedTime = st.elapsedTime ∧
      (handleTargetHoursChange value st).currentPhase = st.currentPhase ∧
      (st.startTime = none → (handleTargetHoursChange value st).estimatedEndTime = none) ∧
      (∀ s : Int, st.startTime = some (.num s) → s ≠ 0 → -exactBound ≤ s →
        h * 3600000 ≤ exactBound → s + h * 3600000 ≤ exactBound →
        (handleTargetHoursChange value st).estimatedEndTime = some (.num (s + h * 3600000)))) ∧
    (∀ h : Int, parseInt value = .num h → h < 1 → handleTargetHoursChange value st = st) ∧
    (parseInt value = .nan → handleTargetHoursChange value st = st) ∧
    (∀ n : Int, n < 1 → handleTargetHoursChange (JSNum.num n).toString st = st) ∧
    (∀ n : Int, 1 ≤ n → n ≤ exactBound →
      (handleTargetHoursChange (JSNum.num n).toString st).targetFastingHours = .num n) ∧
    handleTargetHoursChange "0" st = st ∧
    handleTargetHoursChange "-5" st = st ∧
    handleTargetHoursChange "" st = st ∧
    handleTargetHoursChange "abc" st = st ∧
    handleTargetHoursChange "24" pausedSession =
      { pausedSession with
        targetFastingHours := .num 24
        estimatedEndTime := some (.num 86401000) } := by
  refine ⟨?_, ?_, ?_, ?_, ?_, ?_, ?_, ?_, ?_, by decide⟩
  · intro h hp h1 _
    rw [handleTargetHoursChange_of_num value st h hp, if_pos h1]
    refine ⟨rfl, rfl, rfl, rfl, rfl, ?_, ?_⟩
    · intro hs
      simp [hs, calculateEstimatedEndTime]
    · intro s hs hs0 _ _ _
      have hh : h ≠ 0 := by omega
      simp only [hs, calculateEstimatedEndTime, JSNum.truthy, JSNum.mul, JSNum.add]
      simp only [ne_eq, hs0, hh, not_false_eq_true, decide_True, Bool.and_self, if_true]
      congr 2
      ring
  · intro h hp h1
    rw [handleTargetHoursChange_of_num value st h hp, if_neg (by omega)]
  · exact handleTargetHoursChange_of_nan value st
  · intro n hn
    rw [handleTargetHoursChange_of_num _ st n (parseInt_toString n), if_neg (by omega)]
  · intro n hn _
    rw [handleTargetHoursChange_of_num _ st n (parseInt_toString n), if_pos hn]
  · rw [handleTargetHoursChange_of_num "0" st 0 (by decide), if_neg (by decide)]
  · rw [handleTargetHoursChange_of_num "-5" st (-5) (by decide), if_neg (by decide)]
  · exact handleTargetHoursChange_of_nan "" st (by decide)
  · exact handleTargetHoursChange_of_nan "abc" st (by decide)

/-! ## Start-time change -/

/-- C6, the code at the failing input: on a paused session that began at
instant 1000, a start-time text that is not a valid date (so `getTime()` is
`NaN`) replaces `startTime` by `NaN` and clears the estimate; the state is not
retained. -/
theorem handleStartTimeChange_stores_nan :
    (handleStartTimeChange .nan 5000 pausedSession).startTime = some .nan ∧
    (handleStartTimeChange .nan 5000 pausedSession).estimatedEndTime = none ∧
    pausedSession.startTime = some (.num 1000) ∧
    pausedSession.estimatedEndTime = some (.num 64801000) ∧
    handleStartTimeChange .nan 5000 pausedSession ≠ pausedSession := by
  decide

/-! ## The tick -/

/-- A negative elapsed time resolves to the same phase as 0. -/
theorem getFastingPhase_clamp (e : Int) :
    getFastingPhase (.num e) = getFastingPhase (.num (max 0 e)) := by
  by_cases h : 0 ≤ e
  · rw [max_eq_right h]
  · rw [max_eq_left (by omega)]
    have hloop : getFastingPhase (.num e) =
        some (getFastingPhaseLoop (.num e) fastingPhases anabolic) := by
      simp only [getFastingPhase, getFastingPhaseOf, sortByThreshold_fastingPhases]
      rfl
    rw [hloop]
    have h0 : getFastingPhase (.num 0) = some anabolic := by decide
    rw [h0]
    simp [fastingPhases, getFastingPhaseLoop, JSNum.ge, anabolic]
    omega

/-- C7, the claim as stated fails: a running session whose start instant 1000
lies after the tick instant 0 stores the elapsed time -1000, not 0. -/
theorem tick_stores_negative_elapsed :
    runningSession.isFasting = true ∧
    runningSession.startTime = some (.num 1000) ∧
    (tick 0 runningSession).elapsedTime = .num (-1000) ∧
    (tick 0 runningSession).elapsedTime ≠ .num (max 0 (0 - 1000)) := by
  decide

/-- C7, amended. For a running session with start instant `s` and every tick
instant `now`, the tick stores `now - s` unclamped (which is `max 0 (now - s)`
whenever `s ≤ now`), and the current phase it derives is `getFastingPhase` of
the clamped value `max 0 (now - s)` in every case. -/
theorem tick_elapsed_and_phase (s now : Int) (st : State)
    (hrun : st.isFasting = true) (hstart : st.startTime = some (.num s)) :
    (tick now st).elapsedTime = .num (now - s) ∧
    (s ≤ now → (tick now st).elapsedTime = .num (max 0 (now - s))) ∧
    (tick now st).currentPhase = getFastingPhase (.num (max 0 (now - s))) := by
  have he : (tick now st).elapsedTime = .num (now - s) := by
    simp [tick, timerEffect, intervalCallback, hrun, hstart, JSNum.sub]
  have hp : (tick now st).currentPhase = getFastingPhase (.num (now - s)) := by
    simp [tick, timerEffect, intervalCallback, hrun, hstart, JSNum.sub]
  refine ⟨he, fun hle => ?_, ?_⟩
  · rw [he, max_eq_right (by omega)]
  · rw [hp, getFastingPhase_clamp]

/-- The tick at instant 5000 of the running session that began at instant 1000. -/
theorem tick_elapsed_and_phase_witness :
    runningSession.isFasting = true ∧ runningSession.startTime = some (.num 1000) ∧
    (tick 5000 runningSession).elapsedTime = .num (5000 - 1000) ∧
    ((1000 : Int) ≤ 5000 → (tick 5000 runningSession).elapsedTime = .num (max 0 (5000 - 1000))) ∧
    (tick 5000 runningSession).currentPhase = getFastingPhase (.num (max 0 (5000 - 1000))) :=
  ⟨by decide, by decide, tick_elapsed_and_phase 1000 5000 runningSession (by decide) (by decide)⟩

/-! ## Persistence and startup load -/

theorem boolToString_ne_empty (b : Bool) : boolToString b ≠ "" := by
  cases b <;> decide

theorem boolToString_eq_true (b : Bool) : decide (boolToString b = "true") = b := by
  cases b <;> decide

theorem getItem_setItem (store : Store) (key value k : String) :
    getItem (setItem store key value) k = if k = key then some value else getItem store k := rfl

/-- The running flag after the startup load, by the keys it is read from. -/
theorem load_isFasting (store : Store) :
    (load store).isFasting =
      match getItem store "fast_is_fasting" with
      | some saved => if saved ≠ "" then decide (saved = "true") else initIsFasting store
      | none => initIsFasting store := by
  simp only [load, mountEffect, initialState]
  cases getItem store "fast_start_time" <;> cases getItem store "fast_is_fasting" <;>
    cases getItem store "fast_target_hours" <;> simp <;> split_ifs <;> simp

/-- The start instant after the startup load, by the keys it is read from. -/
theorem load_startTime (store : Store) :
    (load store).startTime =
      match getItem store "fast_start_time" with
      | some saved => if saved ≠ "" then some (jsNumber saved) else initStartTime store
      | none => initStartTime store := by
  simp only [load, mountEffect, initialState]
  cases getItem store "fast_start_time" <;> cases getItem store "fast_is_fasting" <;>
    cases getItem store "fast_target_hours" <;> simp <;> split_ifs <;> simp

/-- The target hours after the startup load, by the keys they are read from. -/
theorem load_targetFastingHours (store : Store) :
    (load store).targetFastingHours =
      match getItem store "fast_target_hours" with
      | some saved => if saved ≠ "" then jsNumber saved else initTargetFastingHours store
      | none => initTargetFastingHours store := by
  simp only [load, mountEffect, initialState]
  cases getItem store "fast_start_time" <;> cases getItem store "fast_is_fasting" <;>
    cases getItem store "fast_target_hours" <;> simp <;> split_ifs <;> simp

theorem persistEffects_fast_is_fasting (st : State) (store : Store) :
    getItem (persistEffects st store) "fast_is_fasting" = some (boolToString st.isFasting) := by
  simp [persistEffects, getItem_setItem]

theorem persistEffects_fast_target_hours (st : State) (store : Store) :
    getItem (persistEffects st store) "fast_target_hours" = some st.targetFastingHours.toString := by
  simp [persistEffects, getItem_setItem]

theorem persistEffects_fast_start_time (st : State) (store : Store) :
    getItem (persistEffects st store) "fast_start_time" =
      match st.startTime with
      | some t => some t.toString
      | none => getItem store "fast_start_time" := by
  cases h : st.startTime <;> simp [persistEffects, getItem_setItem, h]

theorem persistEffects_startTime_key (st : State) (store : Store) :
    getItem (persistEffects st store) "startTime" = getItem store "startTime" := by
  cases h : st.startTime <;> simp [persistEffects, getItem_setItem, h]

/-- C8, the claim as stated fails: a session with `startTime = null` persisted
over a store that already holds `fast_start_time = "5"` reloads with the start
instant 5, because the persistence effect writes nothing for `null`. -/
theorem persist_load_null_startTime_not_reproduced :
    freshSession.startTime = none ∧
    (load (persistEffects freshSession (setItem emptyStore "fast_start_time" "5"))).startTime
      = some (.num 5) := by
  decide

/-- C8, amended. Persisting a state over any prior store and then running the
startup load reproduces `isFasting` and `targetFastingHours` always, and
reproduces `startTime` whenever it is not `null`. For `startTime = null` the
effect writes nothing, so the load returns the start instant the prior store
already loads to; that is `null` when the prior store holds neither
`fast_start_time` nor `startTime`. -/
theorem persist_load_roundtrip (st : State) (store : Store) :
    (load (persistEffects st store)).isFasting = st.isFasting ∧
    (load (persistEffects st store)).targetFastingHours = st.targetFastingHours ∧
    (∀ t, st.startTime = some t → (load (persistEffects st store)).startTime = some t) ∧
    (st.startTime = none →
      (load (persistEffects st store)).startTime = (load store).startTime) ∧
    (st.startTime = none → getItem store "fast_start_time" = none →
      getItem store "startTime" = none →
      (load (persistEffects st store)).startTime = none) := by
  have hnull : st.startTime = none →
      (load (persistEffects st store)).startTime = (load store).startTime := by
    intro h
    rw [load_startTime, load_startTime, persistEffects_fast_start_time, h]
    simp only [initStartTime, persistEffects_startTime_key]
  refine ⟨?_, ?_, ?_, hnull, ?_⟩
  · rw [load_isFasting, persistEffects_fast_is_fasting]
    simp [boolToString_ne_empty, boolToString_eq_true]
  · rw [load_targetFastingHours, persistEffects_fast_target_hours]
    simp [toString_ne_empty, jsNumber_toString]
  · intro t h
    rw [load_startTime, persistEffects_fast_start_time, h]
    simp [toString_ne_empty, jsNumber_toString]
  · intro h h1 h2
    rw [hnull h, load_startTime, h1]
    simp [initStartTime, h2]

/-! ## Estimated end -/

/-- C9, the code at the failing inputs: loading a store that holds the start
instant 1000 gives `startTime = 1000` with `estimatedEndTime = null` (the
mount effect never computes the estimate), and a start-time change to the
instant 0 also leaves the estimate `null` (0 is falsy in
`calculateEstimatedEndTime`). -/
theorem estimatedEndTime_null_with_startTime :
    (load (setItem emptyStore "fast_start_time" "1000")).startTime = some (.num 1000) ∧
    (load (setItem emptyStore "fast_start_time" "1000")).targetFastingHours = .num 18 ∧
    (load (setItem emptyStore "fast_start_time" "1000")).estimatedEndTime = none ∧
    (handleStartTimeChange (.num 0) 5000 pausedSession).startTime = some (.num 0) ∧
    (handleStartTimeChange (.num 0) 5000 pausedSession).estimatedEndTime = none := by
  decide

/-! ## Defaults at startup -/

/-- C10, the claim as stated fails: a corrupt `fast_target_hours` loads as
`NaN` and a corrupt `fast_start_time` loads as `NaN`, not as the defaults 18
and `null`; and a stored `0` loads as the target 0, which is not positive. -/
theorem load_corrupt_number_not_default :
    (load (setItem emptyStore "fast_target_hours" "abc")).targetFastingHours = .nan ∧
    (load (setItem emptyStore "fast_start_time" "abc")).startTime = some .nan ∧
    (load (setItem emptyStore "fast_target_hours" "0")).targetFastingHours = .num 0 := by
  decide

/-- C10, amended. The startup load falls back to the default of a field when
that field is missing from the store (no value, or the empty text, under the
keys the load reads for it): `startTime = null`, `targetFastingHours = 18`,
`isFasting = false`; an empty store loads as `(false, null, 18)`. A running
flag stored under `fast_is_fasting` with any text other than `"true"` loads as
`false`. A non-empty numeric field is converted with `Number` without a
check: the decimal text of an integer `z` of magnitude at most `2^53` loads as
`z` (so `0` loads as the target 0), and the text `abc` loads as `NaN`. -/
theorem load_defaults (store : Store) :
    (textTruthy (getItem store "fast_start_time") = false →
      textTruthy (getItem store "startTime") = false → (load store).startTime = none) ∧
    (textTruthy (getItem store "fast_target_hours") = false →
      textTruthy (getItem store "targetFastingHours") = false →
      (load store).targetFastingHours = .num 18) ∧
    (textTruthy (getItem store "fast_is_fasting") = false →
      getItem store "isFasting" ≠ some "true" → (load store).isFasting = false) ∧
    (∀ saved, getItem store "fast_is_fasting" = some saved → saved ≠ "" → saved ≠ "true" →
      (load store).isFasting = false) ∧
    (∀ z : Int, -exactBound ≤ z → z ≤ exactBound →
      getItem store "fast_start_time" = some (JSNum.num z).toString →
      (load store).startTime = some (.num z)) ∧
    (∀ z : Int, -exactBound ≤ z → z ≤ exactBound →
      getItem store "fast_target_hours" = some (JSNum.num z).toString →
      (load store).targetFastingHours = .num z) ∧
    (getItem store "fast_start_time" = some "abc" → (load store).startTime = some .nan) ∧
    (getItem store "fast_target_hours" = some "abc" → (load store).targetFastingHours = .nan) ∧
    load emptyStore = freshSession := by
  refine ⟨?_, ?_, ?_, ?_, ?_, ?_, ?_, ?_, by decide⟩
  · intro h1 h2
    rw [load_startTime]
    unfold initStartTime
    cases h : getItem store "fast_start_time" <;> cases h' : getItem store "startTime" <;>
      simp_all [textTruthy]
  · intro h1 h2
    rw [load_targetFastingHours]
    unfold initTargetFastingHours
    cases h : getItem store "fast_target_hours" <;>
      cases h' : getItem store "targetFastingHours" <;> simp_all [textTruthy]
  · intro h1 h2
    rw [load_isFasting]
    unfold initIsFasting
    cases h : getItem store "fast_is_fasting" <;> simp_all [textTruthy]
  · intro saved h h1 h2
    rw [load_isFasting, h]
    simp [h1, h2]
  · intro z _ _ h
    rw [load_startTime, h]
    simp [toString_ne_empty, jsNumber_toString]
  · intro z _ _ h
    rw [load_targetFastingHours, h]
    simp [toString_ne_empty, jsNumber_toString]
  · intro h
    have hn : jsNumber "abc" = .nan := by decide
    rw [load_startTime, h]
    simp [hn]
  · intro h
    have hn : jsNumber "abc" = .nan := by decide
    rw [load_targetFastingHours, h]
    simp [hn]

end FastingTracker
